import Mathlib

/-!
Verification development for the scene-rating pipeline in
`repair_pipeline.py`.  Text is modelled as `List Char`; numeric scores are
modelled as `ℚ` (the idealized exact semantics of the Python arithmetic).
The regular-expression dialect used by the keyword patterns of the pipeline is
embedded as a small syntax `RE` together with a backtracking matcher that
follows Python `re` semantics (case-insensitive matching, leftmost match
with greedy priority, non-overlapping `finditer` enumeration).
-/

set_option maxRecDepth 100000

namespace RepairPipeline

/-- Lowercase a character, modelling Python `str.lower` on the Latin and
Cyrillic ranges (characters outside those ranges are left unchanged). -/
def lowerChar (c : Char) : Char :=
  if 'A' ≤ c ∧ c ≤ 'Z' then Char.ofNat (c.toNat + 32)
  else if 'А' ≤ c ∧ c ≤ 'Я' then Char.ofNat (c.toNat + 32)
  else if c = 'Ё' then 'ё'
  else c

/-- Case-insensitive character comparison, as performed by `re.I`. -/
def ciEq (a b : Char) : Bool := lowerChar a = lowerChar b

/-- Word character for `\w` (Python Unicode word characters, restricted to
the Latin/digit/underscore and Cyrillic ranges that the lexicon uses). -/
def isWordChar (c : Char) : Bool :=
  (('a' ≤ c ∧ c ≤ 'z') ∨ ('A' ≤ c ∧ c ≤ 'Z') ∨ ('0' ≤ c ∧ c ≤ '9') ∨ c = '_'
    ∨ ('А' ≤ c ∧ c ≤ 'я') ∨ c = 'ё' ∨ c = 'Ё')

/-- Whitespace for `\s` and for Python `str.strip`/`str.split`. -/
def isPySpace (c : Char) : Bool :=
  (c = ' ' ∨ c = '\t' ∨ c = '\n' ∨ c = '\r' ∨ c = '\x0b' ∨ c = '\x0c')

/-- Python `str.lower` on a text. -/
def pyLower (l : List Char) : List Char := l.map lowerChar

/-- Python `str.strip`: remove leading and trailing whitespace. -/
def strip (l : List Char) : List Char :=
  ((l.dropWhile isPySpace).reverse.dropWhile isPySpace).reverse

/-- Number of words produced by Python `str.split()` (maximal runs of
non-whitespace characters). -/
def wordsCountAux : List Char → Bool → Nat
  | [], _ => 0
  | c :: cs, inw =>
    if isPySpace c then wordsCountAux cs false
    else (if inw then 0 else 1) + wordsCountAux cs true

def wordsCount (l : List Char) : Nat := wordsCountAux l false

/-- Abstract syntax of the regular-expression fragment used by the
keyword patterns and suppression patterns of the pipeline. -/
inductive RE where
  | str (s : List Char)        -- literal sequence of characters
  | wordB                      -- \b word boundary
  | wordC                      -- \w
  | spaceC                     -- \s
  | dot                        -- .  (any character except newline)
  | cls (cs : List Char)       -- character class, e.g. [- ]
  | alt (a b : RE)             -- a|b (left priority)
  | seq (a b : RE)             -- concatenation
  | star (a : RE)              -- a*  (greedy)
  | opt (a : RE)               -- a?  (greedy)
  | rep (a : RE) (n : Nat)     -- a{0,n} (greedy), used for .{0,120}
  deriving Repr, DecidableEq

/-- Python `\b`: true when exactly one side of the current position is a
word character (`p` is the character before the position, `r` the rest). -/
def atBoundary (p : Option Char) (r : List Char) : Bool :=
  (p.elim false isWordChar) != (r.head?.elim false isWordChar)

/-- Consume a case-insensitive literal; returns the single continuation or
nothing.  The first component of a state is the previously consumed
character (needed for `\b`), the second the remaining input. -/
def matchStr : List Char → Option Char → List Char → List (Option Char × List Char)
  | [], p, r => [(p, r)]
  | _ :: _, _, [] => []
  | c :: cs, _, x :: xs => if ciEq x c then matchStr cs (some x) xs else []

/-- Greedy repetition driver: `f` is the matcher for the repeated regex;
continuations that consumed at least one character are explored first
(deeper repetitions before shallower), the empty repetition last.  This is
the Python greedy-`*` backtracking priority.  `fuel` bounds the number of
iterations (each productive iteration consumes a character). -/
def runStarAux (f : Option Char → List Char → List (Option Char × List Char)) :
    Option Char → List Char → Nat → List (Option Char × List Char)
  | p, r, 0 => [(p, r)]
  | p, r, fuel + 1 =>
    ((f p r).flatMap fun pr =>
      if pr.2.length < r.length then runStarAux f pr.1 pr.2 fuel else []) ++ [(p, r)]

/-- All ways to match `re` at the current position, as a list of
continuation states in Python backtracking priority order (head = the
match Python would select). -/
def run : RE → Option Char → List Char → List (Option Char × List Char)
  | .str s, p, r => matchStr s p r
  | .wordB, p, r => if atBoundary p r then [(p, r)] else []
  | .wordC, _, r =>
    match r with
    | [] => []
    | x :: xs => if isWordChar x then [(some x, xs)] else []
  | .spaceC, _, r =>
    match r with
    | [] => []
    | x :: xs => if isPySpace x then [(some x, xs)] else []
  | .dot, _, r =>
    match r with
    | [] => []
    | x :: xs => if x = '\n' then [] else [(some x, xs)]
  | .cls cs, _, r =>
    match r with
    | [] => []
    | x :: xs => if cs.any (fun c => ciEq x c) then [(some x, xs)] else []
  | .alt a b, p, r => run a p r ++ run b p r
  | .seq a b, p, r => (run a p r).flatMap fun pr => run b pr.1 pr.2
  | .star a, p, r => runStarAux (run a) p r (r.length + 1)
  | .opt a, p, r => run a p r ++ [(p, r)]
  | .rep a n, p, r => runStarAux (run a) p r (min n (r.length + 1))

/-- The character just before position `i` of `text` (for `\b`). -/
def prevChar (text : List Char) (i : Nat) : Option Char :=
  if i = 0 then none else text[i - 1]?

/-- Length (in characters) of the match Python selects for `re` anchored at
position `i` of `text`, if any. -/
def matchLenAt (re : RE) (text : List Char) (i : Nat) : Option Nat :=
  match (run re (prevChar text i) (text.drop i)).head? with
  | none => none
  | some pr => some ((text.drop i).length - pr.2.length)

/-- `re.finditer`: non-overlapping matches scanned left to right; returns
`(start, end)` index pairs.  After an empty match the scan advances one
position, as in Python. -/
def finditerAux (re : RE) (text : List Char) : Nat → Nat → List (Nat × Nat)
  | _, 0 => []
  | i, fuel + 1 =>
    if text.length < i then []
    else
      match matchLenAt re text i with
      | none => finditerAux re text (i + 1) fuel
      | some len => (i, i + len) :: finditerAux re text (i + max len 1) fuel

def finditer (re : RE) (text : List Char) : List (Nat × Nat) :=
  finditerAux re text 0 (text.length + 2)

/-- `re.search`: does `re` match anywhere in `text`? -/
def research (re : RE) (text : List Char) : Bool :=
  (List.range (text.length + 1)).any fun i =>
    !(run re (prevChar text i) (text.drop i)).isEmpty

/-! Shorthand builders used to transcribe the Python pattern strings. -/

/-- Literal pattern from a string. -/
def rs (s : String) : RE := .str s.toList

/-- `\w*` -/
def wstar : RE := .star .wordC

/-- `\w+` -/
def wplus : RE := .seq .wordC (.star .wordC)

/-- `\s+` -/
def splus : RE := .seq .spaceC (.star .spaceC)

/-- `\bs\w*` -/
def bW (s : String) : RE := .seq .wordB (.seq (rs s) wstar)

/-- `\bs\w+` -/
def bP (s : String) : RE := .seq .wordB (.seq (rs s) wplus)

/-- `\bs\b` -/
def bB (s : String) : RE := .seq .wordB (.seq (rs s) .wordB)

/-- Alternation of literal strings `(s1|s2|…)` with left priority. -/
def altStrs : List String → RE
  | [] => .str []
  | [s] => rs s
  | s :: rest => .alt (rs s) (altStrs rest)

/-- Concatenation of a list of regexes. -/
def cat : List RE → RE
  | [] => .str []
  | [a] => a
  | a :: rest => .seq a (cat rest)

/-! Keyword pattern lists, transcribed from `repair_pipeline.py`. -/

/-- `VIOLENCE_WORDS` (lines 136-158 of the source). -/
def VIOLENCE_WORDS : List RE := [
  -- English patterns
  bW "kill", bW "shoot", bB "shot", bW "stab",
  bB "knife", bW "gun", bB "pistol", bB "rifle",
  bW "explod", bW "blast", bW "attack",
  bB "beating", bB "beaten", bB "beats",
  bB "corpse", bB "dead", bW "murder", bB "violence",
  bB "terrorist", bB "hostage",
  cat [.wordB, rs "rip", .opt (altStrs [ "ped", "s"]), rs " apart", .wordB],
  cat [.wordB, rs "thug", .opt (rs "s"), .wordB],
  bB "terror",
  cat [.wordB, rs "fight", .opt (rs "ing"), .wordB],
  cat [.wordB, rs "battle", .opt (altStrs [ "s", "d"]), .wordB],
  bB "war",
  cat [.wordB, rs "shoot", .opt (.cls [ '-', ' ']), rs "out", .wordB],
  bB "explosion", bB "grenade",
  -- Russian patterns
  bW "убий", bB "убить", bW "убил", bW "убива",
  bW "стреля", bW "выстрел", bW "застрел",
  bW "зарез", bB "нож", bP "оруж", bW "пистолет",
  bW "винтовк", bW "автомат", bW "взрыв",
  bW "атак", bW "нападе", bW "избие",
  bW "труп", bW "мертв", bW "погиб",
  bB "насилие", bW "жесток", bW "террор",
  bW "заложник", bW "бандит", bW "драк",
  bB "бой", bW "сраж", bB "война", bW "боев",
  bW "гранат", bW "бомб"]

/-- `GORE_WORDS` (lines 160-171). -/
def GORE_WORDS : List RE := [
  bB "blood", bB "bloody", bB "bloodied", bB "bleeding",
  bB "corpse", bB "wound", bB "scar", bW "injur",
  bW "crash", bW "burn", bB "guts", bB "entrails",
  bB "brain", bB "dead body", bB "gore", bW "mutilat",
  bW "кров", bW "кровав", bW "кровоточ",
  bP "ран", bW "шрам", bW "увечь",
  bW "ожог", bW "кишк", bW "внутренност",
  bW "мозг", bW "расчленен", bW "изувеч"]

/-- `PROFANITY` (lines 173-182). -/
def PROFANITY : List RE := [
  bB "fuck", bB "shit", bB "motherfucker", bB "bitch",
  bB "asshole", bB "damn", bB "hell", bB "crap",
  bB "блядь", bB "бля", bB "сука", bB "хуй",
  bW "пизд", bB "ебать", bW "ебал", bW "ебан",
  bW "заеб", bW "дерьм", bW "говн", bW "хер",
  bW "мудак", bW "сволоч", bB "тварь"]

/-- `DRUG_WORDS` (lines 184-194). -/
def DRUG_WORDS : List RE := [
  cat [.wordB, rs "drug", .opt (rs "s"), .wordB],
  bB "heroin", bB "cocaine", bB "marijuana",
  cat [.wordB, rs "pill", .opt (rs "s"), .wordB],
  bB "weed", bB "alcohol", bB "drunk",
  bB "cigarette",
  cat [.wordB, rs "smok", altStrs [ "e", "ing"], .wordB],
  bB "addiction",
  bW "наркот", bW "героин", bW "кокаин", bW "марихуан",
  bW "травк", bW "доп", bW "таблетк", bW "пилюл",
  bW "алкогол", bW "спирт", bW "выпив", bW "пьян",
  bW "сигарет", bW "кур", bW "зависим", bW "накур"]

/-- `CHILD_WORDS` (lines 196-204). -/
def CHILD_WORDS : List RE := [
  cat [.wordB, rs "child", .opt (rs "ren"), .wordB],
  cat [.wordB, rs "kid", .opt (rs "s"), .wordB],
  bB "son", bB "daughter",
  cat [.wordB, rs "teen", .opt (rs "aged"), .wordB],
  bB "boy", bB "girl", bB "minor",
  bB "ребенок", bW "ребенк", bP "дет", bW "малыш",
  bB "сын", bW "доч", bW "подросток", bW "мальчик",
  bW "девочк", bW "несовершеннолетн"]

/-- `NUDITY_WORDS` (lines 206-214).  Note `\bpanty|panties\b` parses as the
alternation of `\bpanty` and `panties\b`. -/
def NUDITY_WORDS : List RE := [
  bB "bra",
  .alt (.seq .wordB (rs "panty")) (.seq (rs "panties") .wordB),
  bB "underwear", bB "naked",
  bB "nude", bW "undress", bB "topless",
  bB "голый", bB "голая", bW "наг", bW "обнаж",
  bW "бюстгальтер", bW "трус", bB "белье",
  bW "раздева",
  cat [.wordB, rs "без одежд", wstar]]

/-- `SEX_WORDS` (lines 216-226). -/
def SEX_WORDS : List RE := [
  bB "rape", bB "sexual", bB "intercourse", bB "sex scene",
  bB "molest", bB "orgasm", bB "make love", bB "having sex",
  bB "sexually",
  cat [.wordB, rs "bed", splus, rs "scene", .wordB],
  bW "изнасилов", bW "насилов", bW "сексуальн",
  cat [.wordB, rs "полов", wplus, splus, rs "акт", wstar],
  bW "интимн", bW "оргазм",
  cat [.wordB, rs "занимаются", splus, rs "сексом", .wordB],
  cat [.wordB, rs "занимались", splus, rs "любовью", .wordB],
  cat [.wordB, rs "постельн", wplus, splus, rs "сцен", wstar]]

/-- `FALSE_POSITIVES` (lines 254-306): context-window patterns whose match
suppresses a keyword hit. -/
def FALSE_POSITIVES : List RE := [
  -- English patterns
  cat [ rs "if ", altStrs [ "it", "that", "this"], rs " kills"],
  cat [ altStrs [ "it", "that", "this"], rs "\u0027ll kill"],
  cat [ altStrs [ "it", "that", "this"], rs " ", altStrs [ "will", "would"], rs " kill"],
  cat [ rs "gonna", .star .dot, rs "kill"],
  cat [ rs "kill ", altStrs [ "you", "me", "him", "her", "them", "us"]],
  rs "make love",
  rs "kill time",
  rs "dressed to kill",
  rs "killer instinct",
  rs "lady killer",
  rs "killing me softly",
  rs "shoot the breeze",
  rs "shoot for",
  rs "shot in the dark",
  rs "long shot",
  rs "shot at",
  cat [ rs "light", .opt (.cls [ ' ', '-']), rs "shot"],
  cat [ rs "fight ", altStrs [ "for", "to see", "to", "for the"]],
  cat [ rs "fighting ", altStrs [ "for", "against"]],
  rs "won the war",
  cat [ rs "war ", altStrs [ "ration", "time", "era", "years"]],
  cat [ altStrs [ "world", "civil", "cold"], rs " war"],
  cat [ rs "battle", .opt (rs "s"), rs " ", altStrs [ "with", "against", "for"]],
  cat [ rs "attack", .opt (altStrs [ "ed", "ing"]), rs " ", altStrs [ "the", "a"], rs " problem"],
  rs "speed of light",
  rs "explosion of",
  cat [ rs "explod", altStrs [ "e", "ed", "ing"], rs " ", altStrs [ "with", "into"]],
  rs "fight back tears",
  cat [ rs "fight for ", altStrs [ "justice", "freedom", "rights"]],
  cat [ rs "fightin", .opt (rs "g"), rs " ", altStrs [ "cancer", "disease", "illness"]],
  rs "dead serious",
  rs "pool table",
  rs "bank shot",
  cat [.wordB, rs "a beat", .wordB],
  cat [ rs "as if", .star .dot, .wordB, altStrs [ "molest", "rape", "seduce", "fondle"]],
  cat [ rs "about to", .star .dot, .wordB, altStrs [ "molest", "rape", "seduce", "fondle"]],
  cat [ rs "were to", .star .dot, .wordB, altStrs [ "molest", "rape", "seduce"]],
  cat [ rs "would", .star .dot, .wordB, altStrs [ "molest", "rape", "seduce"]],
  cat [ rs "brain ", altStrs [ "garbage", "dump", "drain", "power", "wave", "dead", "cell", "teaser"]],
  cat [ rs "brain", .opt (rs "s"), rs " ", altStrs [ "are", "is"], rs " ",
        altStrs [ "just", "garbage", "trash"]],
  -- Russian patterns
  rs "в курсе",
  rs "курток",
  cat [ rs "куртк", .wordC],
  rs "обритый наголо",
  rs "наголо",
  cat [ rs "таблетк", wplus, splus, altStrs [ "от", "для", "против"]],
  cat [ rs "болеутол", wplus],
  cat [ rs "кроват", wstar],
  cat [ rs "кров", .cls [ 'а', 'о'], wstar]]

/-- Is the context window a false positive?  Models the
`any(fp.search(excerpt) ...)` test in `count_pattern_matches`. -/
def isFalsePositive (excerpt : List Char) : Bool :=
  FALSE_POSITIVES.any fun fp => research fp excerpt

/-- The 50-character symmetric context window around a match `(start, end)`,
stripped — the excerpt recorded by `count_pattern_matches`. -/
def excerptOf (text : List Char) (m : Nat × Nat) : List Char :=
  let s := m.1 - 50
  let e := min text.length (m.2 + 50)
  strip ((text.drop s).take (e - s))

/-- `count_pattern_matches` (lines 245-331): per pattern, enumerate matches;
each non-false-positive match increments the count and records its excerpt;
finally the excerpt list drops trimmed excerpts of length ≤ 10 and is capped
at 5.  The fold mirrors the Python loop with its `(count, matches)` state. -/
def count_pattern_matches (patterns : List RE) (text : List Char) :
    Nat × List (List Char) :=
  let pm := patterns.foldl (fun acc pat =>
      (finditer pat text).foldl (fun acc m =>
        let excerpt := excerptOf text m
        if isFalsePositive excerpt then acc
        else (acc.1 + 1, acc.2 ++ [excerpt])) acc) (0, [])
  (pm.1, ((pm.2.filter fun m => 10 < (strip m).length).take 5))

/-! Scene segmentation (`parse_script_to_scenes`, lines 673-707). -/

/-- A scene record `{scene_id, heading, text}`. -/
structure Scene where
  scene_id : Nat
  heading : List Char
  text : List Char
  deriving Repr, DecidableEq

/-- The scene-marker alternation used by the `re.split` lookahead:
`INT.|EXT.|ИНТ.|ЭКСТ.|scene_heading\s*:|SCENE HEADING\s*:` (case-insensitive). -/
def SPLIT_MARKER_RE : RE :=
  .alt (rs "int.") (.alt (rs "ext.") (.alt (rs "инт.") (.alt (rs "экст.")
    (.alt (cat [ rs "scene_heading", .star .spaceC, rs ":"])
          (cat [ rs "scene heading", .star .spaceC, rs ":"])))))

/-- The heading pattern `((?:INT\.|EXT\.|ИНТ\.|ЭКСТ\.).{0,120})`, matched
anchored at the start of a scene fragment by `re.match`. -/
def HEADING_RE : RE :=
  .seq (.alt (rs "int.") (.alt (rs "ext.") (.alt (rs "инт.") (rs "экст."))))
    (.rep .dot 120)

/-- Positions at which the zero-width split lookahead fires. -/
def splitPositions (text : List Char) : List Nat :=
  (List.range text.length).filter fun i => (matchLenAt SPLIT_MARKER_RE text i).isSome

/-- The fragments of `text` delimited by the (ascending) positions `ps`,
starting from offset `prev` — the parts produced by `re.split` on a
zero-width lookahead. -/
def partsAux (text : List Char) (prev : Nat) : List Nat → List (List Char)
  | [] => [text.drop prev]
  | p :: ps => ((text.drop prev).take (p - prev)) :: partsAux text p ps

/-- Heading of a kept fragment: the anchored heading match (stripped), or
the synthetic `scene_{idx}`. -/
def headingOf (t : List Char) (idx : Nat) : List Char :=
  match matchLenAt HEADING_RE t 0 with
  | some len => strip (t.take len)
  | none => ( "scene_" ++ toString idx).toList

/-- Keep the fragments whose stripped text has at least 20 characters,
numbering them densely, as the segmentation loop does. -/
def buildScenes : List (List Char) → Nat → List Scene
  | [], _ => []
  | p :: ps, idx =>
    let t := strip p
    if t.length < 20 then buildScenes ps idx
    else { scene_id := idx, heading := headingOf t idx, text := t } :: buildScenes ps (idx + 1)

/-- `parse_script_to_scenes`: split at marker positions, keep long fragments,
and fall back to one full-document scene when fewer than 3 scenes result. -/
def parse_script_to_scenes (txt : List Char) : List Scene :=
  let scenes := buildScenes (partsAux txt 0 (splitPositions txt)) 0
  if scenes.length < 3 then
    [{ scene_id := 0, heading := ( "full_script".toList), text := txt }]
  else scenes

/-! Feature extraction and score normalization (lines 334-490).  The
semantic context scores come from an external sentence-embedding model
(`analyze_scene_context`); the embedding is modelled as an oracle function
supplied as a parameter, and the ten archetype similarities as a record. -/

/-- The ten context-archetype similarity scores of a scene. -/
structure CtxScores where
  graphic_violence : ℚ
  stylized_action : ℚ
  sexual_content : ℚ
  mild_romance : ℚ
  horror_violence : ℚ
  profanity_context : ℚ
  drug_abuse : ℚ
  child_endangerment : ℚ
  discussion_violence : ℚ
  thriller_tension : ℚ
  deriving Repr, DecidableEq

/-- The per-scene `FeatureVector` built by `extract_scene_features`. -/
structure Features where
  violence_count : Nat
  violence_excerpts : List (List Char)
  gore_count : Nat
  gore_excerpts : List (List Char)
  profanity_count : Nat
  profanity_excerpts : List (List Char)
  drugs_count : Nat
  drugs_excerpts : List (List Char)
  child_count : Nat
  child_excerpts : List (List Char)
  nudity_count : Nat
  nudity_excerpts : List (List Char)
  sex_count : Nat
  sex_excerpts : List (List Char)
  length : Nat
  context_scores : CtxScores
  deriving Repr, DecidableEq

/-- `extract_scene_features` (lines 357-395): lowercase the scene text,
count the pattern matches of each category on the lowercased copy, and record
the word length (floored at 1).  `ctxOf` is the external embedding-based
context classifier. -/
def extract_scene_features (ctxOf : List Char → CtxScores) (scene_text : List Char) :
    Features :=
  let txt := pyLower scene_text
  let vc := count_pattern_matches VIOLENCE_WORDS txt
  let gc := count_pattern_matches GORE_WORDS txt
  let pc := count_pattern_matches PROFANITY txt
  let dc := count_pattern_matches DRUG_WORDS txt
  let cc := count_pattern_matches CHILD_WORDS txt
  let nc := count_pattern_matches NUDITY_WORDS txt
  let sc := count_pattern_matches SEX_WORDS txt
  { violence_count := vc.1, violence_excerpts := vc.2,
    gore_count := gc.1, gore_excerpts := gc.2,
    profanity_count := pc.1, profanity_excerpts := pc.2,
    drugs_count := dc.1, drugs_excerpts := dc.2,
    child_count := cc.1, child_excerpts := cc.2,
    nudity_count := nc.1, nudity_excerpts := nc.2,
    sex_count := sc.1, sex_excerpts := sc.2,
    length := max 1 (wordsCount txt),
    context_scores := ctxOf scene_text }

/-- Per-category excerpt lists carried through scoring (6 keys, as in the
`excerpts` dict of `normalize_and_contextualize_scores`). -/
structure ExcerptsMap where
  violence : List (List Char)
  gore : List (List Char)
  sex : List (List Char)
  nudity : List (List Char)
  profanity : List (List Char)
  drugs : List (List Char)
  deriving Repr, DecidableEq

/-- The per-scene `ScoreVector`. -/
structure ScoreVec where
  violence : ℚ
  gore : ℚ
  sex_act : ℚ
  nudity : ℚ
  profanity : ℚ
  drugs : ℚ
  child_risk : ℚ
  context_scores : CtxScores
  excerpts : ExcerptsMap
  deriving Repr, DecidableEq

/-- Raw density-based violence score `(count / max(1,L)) * 100`. -/
def violence_raw (f : Features) : ℚ :=
  ((f.violence_count : ℚ) / (max 1 f.length : Nat)) * 100

/-- Raw density-based gore score. -/
def gore_raw (f : Features) : ℚ :=
  ((f.gore_count : ℚ) / (max 1 f.length : Nat)) * 100

/-- The contextual multiplier applied to the raw violence score
(lines 418-439): dampened for discussed/thriller or stylized contexts,
amplified for graphic or horror contexts. -/
def violence_multiplier (ctx : CtxScores) : ℚ :=
  let m1 : ℚ := 1.0
  let m2 := if 0.55 < ctx.discussion_violence ∨ 0.5 < ctx.thriller_tension then m1 * 0.3
    else if 0.5 < ctx.stylized_action then m1 * 0.6
    else m1
  let m3 := if 0.6 < ctx.graphic_violence then m2 * 1.3 else m2
  if 0.55 < ctx.horror_violence then m3 * 1.2 else m3

/-- The contextual multiplier applied to the raw gore score. -/
def gore_multiplier (ctx : CtxScores) : ℚ :=
  let m1 : ℚ := 1.0
  let m2 := if 0.55 < ctx.discussion_violence ∨ 0.5 < ctx.thriller_tension then m1 * 0.3
    else if 0.5 < ctx.stylized_action then m1 * 0.7
    else m1
  let m3 := if 0.6 < ctx.graphic_violence then m2 * 1.4 else m2
  if 0.55 < ctx.horror_violence then m3 * 1.3 else m3

/-- `normalize_and_contextualize_scores` (lines 398-490). -/
def normalize_and_contextualize_scores (f : Features) : ScoreVec :=
  let L := f.length
  let ctx := f.context_scores
  let violence_score := min 1.0 (violence_raw f * violence_multiplier ctx)
  let gore_score := min 1.0 (gore_raw f * gore_multiplier ctx)
  let sex_raw : ℚ := (f.sex_count : ℚ)
  let sex_score :=
    if 0.6 < ctx.sexual_content ∧ 0 < sex_raw then min 1.0 (sex_raw * 1.5)
    else if 0.5 < ctx.mild_romance then min 0.3 (sex_raw * 0.5)
    else min 1.0 sex_raw
  let nudity_score := min 1.0 ((f.nudity_count : ℚ) / 3.0)
  let profanity_score := min 1.0 ((f.profanity_count : ℚ) / ((L : ℚ) / 100))
  let drugs_score :=
    if 0.55 < ctx.drug_abuse then min 1.0 ((f.drugs_count : ℚ) / 2.0)
    else min 1.0 ((f.drugs_count : ℚ) / 5.0)
  let child_risk :=
    if 0 < f.child_count then
      if 0.5 < ctx.child_endangerment then min 1.0 ((f.child_count : ℚ) / 2.0)
      else min 0.5 ((f.child_count : ℚ) / 5.0)
    else 0.0
  { violence := violence_score, gore := gore_score, sex_act := sex_score,
    nudity := nudity_score, profanity := profanity_score, drugs := drugs_score,
    child_risk := child_risk, context_scores := ctx,
    excerpts := { violence := f.violence_excerpts, gore := f.gore_excerpts,
                  sex := f.sex_excerpts, nudity := f.nudity_excerpts,
                  profanity := f.profanity_excerpts, drugs := f.drugs_excerpts } }

/-! Aggregation (lines 774-813).  `np.max` and `np.percentile` (with the
default linear interpolation) are modelled exactly on `ℚ`. -/

/-- `np.max` of a list of values (the lists aggregated here are nonempty;
the empty case returns 0). -/
def npmax : List ℚ → ℚ
  | [] => 0
  | x :: xs => xs.foldl max x

/-- Linear interpolation between adjacent order statistics of the sorted
value list `s`: the virtual index is `q*(n-1)/100`. -/
def percentileSorted (q : ℚ) (s : List ℚ) : ℚ :=
  let n := s.length
  let v : ℚ := q * ((n : ℚ) - 1) / 100
  let k : Nat := (Int.floor v).toNat
  let g : ℚ := v - (k : ℚ)
  s.getD k 0 + g * (s.getD (min (k + 1) (n - 1)) 0 - s.getD k 0)

/-- `np.percentile(values, q)` with the default linear interpolation. -/
def percentile (q : ℚ) (l : List ℚ) : ℚ :=
  let s := l.mergeSort fun a b => decide (a ≤ b)
  if s.isEmpty then 0 else percentileSorted q s

/-- The aggregated `DocumentScoreVector`. -/
structure AggScores where
  violence : ℚ
  gore : ℚ
  sex_act : ℚ
  nudity : ℚ
  profanity : ℚ
  drugs : ℚ
  child_risk : ℚ
  excerpts : ExcerptsMap
  deriving Repr, DecidableEq

/-- Aggregation of per-scene score vectors (lines 776-813): violence/gore
use `0.7*max + 0.3*p95`; sex/nudity/child risk use `0.85*max + 0.15*p90`;
profanity/drugs use the 90th percentile; excerpts are pooled per category
and capped at 5. -/
def aggregate_scores (scores : List ScoreVec) : AggScores :=
  let vg := fun vals => npmax vals * 0.7 + percentile 95 vals * 0.3
  let sx := fun vals => npmax vals * 0.85 + percentile 90 vals * 0.15
  { violence := vg (scores.map (·.violence)),
    gore := vg (scores.map (·.gore)),
    sex_act := sx (scores.map (·.sex_act)),
    nudity := sx (scores.map (·.nudity)),
    profanity := percentile 90 (scores.map (·.profanity)),
    drugs := percentile 90 (scores.map (·.drugs)),
    child_risk := sx (scores.map (·.child_risk)),
    excerpts := { violence := (scores.flatMap (·.excerpts.violence)).take 5,
                  gore := (scores.flatMap (·.excerpts.gore)).take 5,
                  sex := (scores.flatMap (·.excerpts.sex)).take 5,
                  nudity := (scores.flatMap (·.excerpts.nudity)).take 5,
                  profanity := (scores.flatMap (·.excerpts.profanity)).take 5,
                  drugs := (scores.flatMap (·.excerpts.drugs)).take 5 } }

/-! Rating classification (`map_scores_to_rating`, lines 582-670). -/

/-- The `RatingResult` record. -/
structure RatingResult where
  rating : String
  reasons : List String
  evidence_excerpts : List (List Char)
  deriving Repr, DecidableEq

/-- `map_scores_to_rating`: the ordered threshold rule table.  Each branch
produces the rating together with the reasons and evidence excerpts the
Python code accumulates in that branch; the final evidence list is capped
at 5 (`excerpts[:5]`). -/
def map_scores_to_rating (agg : AggScores) : RatingResult :=
  let E := agg.excerpts
  let res : String × List String × List (List Char) :=
    if 0.75 ≤ agg.sex_act ∨ 0.95 ≤ agg.gore then
      ( "18+",
       (if 0.75 ≤ agg.sex_act then [ "эксплицитные сцены сексуального характера"] else []) ++
         (if 0.95 ≤ agg.gore then [ "крайне графическое изображение жестокости и увечий"] else []),
       (if 0.75 ≤ agg.sex_act ∧ E.sex ≠ [] then E.sex.take 2 else []) ++
         (if 0.95 ≤ agg.gore ∧ E.gore ≠ [] then E.gore.take 2 else []))
    else if 0.7 < agg.child_risk ∧ (0.5 ≤ agg.sex_act ∨ 0.8 ≤ agg.violence) then
      ( "18+", [ "опасные или жестокие сцены с участием несовершеннолетних"],
       if E.violence ≠ [] then E.violence.take 2 else [])
    else if (0.8 ≤ agg.violence ∧ 0.7 ≤ agg.gore) ∨ 0.75 ≤ agg.gore then
      ( "16+", [ "интенсивное графическое насилие с кровью и увечьями"],
       (if E.violence ≠ [] then E.violence.take 2 else []) ++
         (if E.gore ≠ [] then E.gore.take 1 else []))
    else if 0.65 ≤ agg.violence ∨ 0.5 ≤ agg.gore then
      ( "16+",
       (if 0.65 ≤ agg.violence then [ "интенсивное насилие и сцены убийств"] else []) ++
         (if 0.5 ≤ agg.gore then [ "изображение крови и телесных повреждений"] else []),
       (if 0.65 ≤ agg.violence ∧ E.violence ≠ [] then E.violence.take 2 else []) ++
         (if 0.5 ≤ agg.gore ∧ E.gore ≠ [] then E.gore.take 2 else []))
    else if 0.35 ≤ agg.sex_act ∨ 0.4 ≤ agg.nudity then
      ( "16+", [ "сексуальный контент и нагота"],
       (if E.sex ≠ [] then E.sex.take 2 else []) ++
         (if E.nudity ≠ [] then E.nudity.take 2 else []))
    else if 0.4 ≤ agg.violence ∨ 0.5 ≤ agg.profanity ∨ 0.4 ≤ agg.drugs then
      ( "12+",
       (if 0.4 ≤ agg.violence then [ "умеренное насилие и угрозы"] else []) ++
         (if 0.5 ≤ agg.profanity then [ "ненормативная лексика"] else []) ++
         (if 0.4 ≤ agg.drugs then [ "употребление алкоголя, табака или наркотиков"] else []),
       (if 0.4 ≤ agg.violence ∧ E.violence ≠ [] then E.violence.take 1 else []) ++
         (if 0.5 ≤ agg.profanity ∧ E.profanity ≠ [] then E.profanity.take 1 else []) ++
         (if 0.4 ≤ agg.drugs ∧ E.drugs ≠ [] then E.drugs.take 1 else []))
    else if 0.2 ≤ agg.violence ∨ 0.3 ≤ agg.profanity then
      ( "6+", [ "незначительное насилие или редкая грубая лексика"], [])
    else
      ( "0+", [ "контент без возрастных ограничений"], [])
  { rating := res.1, reasons := res.2.1, evidence_excerpts := res.2.2.take 5 }

/-! Scene recommendations and trigger-scene ranking (lines 493-579 and
819-847). -/

/-- `generate_scene_recommendations`: a fixed two-tier threshold ladder per
category, emitting remediation messages in category order, with a fallback
message when nothing fires. -/
def generate_scene_recommendations (s : ScoreVec) : List String :=
  let recs :=
    (if 0.7 ≤ s.violence then
      [ "🔪 Насилие (высокое): Уменьшите графическое изображение насилия. Рекомендации: показать сцену за кадром, использовать обрезку кадра, заменить явное насилие на подразумеваемое действие."]
     else if 0.4 ≤ s.violence then
      [ "⚔️ Насилие (умеренное): Сократите детализацию сцен драки/конфликта. Рекомендации: убрать крупные планы ударов, сократить длительность сцены."]
     else []) ++
    (if 0.6 ≤ s.gore then
      [ "🩸 Кровь/увечья (высокое): Уберите графическое изображение крови и ран. Рекомендации: не показывать раны крупным планом, убрать описания \u0027blood\u0027, \u0027guts\u0027, \u0027SPLORCH\u0027, заменить на более нейтральные формулировки типа \u0027ранен\u0027, \u0027пострадал\u0027."]
     else if 0.3 ≤ s.gore then
      [ "💉 Кровь/увечья (умеренное): Смягчите описание телесных повреждений. Рекомендации: уменьшить количество упоминаний крови."]
     else []) ++
    (if 0.6 ≤ s.sex_act then
      [ "🔞 Сексуальный контент (эксплицитный): Удалите или смягчите явные сексуальные сцены. Рекомендации: использовать монтаж с переходом, показать начало и конец без деталей."]
     else if 0.3 ≤ s.sex_act then
      [ "💋 Сексуальный контент (умеренный): Смягчите романтические/сексуальные элементы."]
     else []) ++
    (if 0.4 ≤ s.nudity then
      [ "👙 Нагота: Уберите или смягчите сцены с обнаженным телом. Рекомендации: использовать одежду, изменить ракурс камеры, убрать описания нижнего белья."]
     else []) ++
    (if 0.5 ≤ s.profanity then
      [ "🤬 Ненормативная лексика (частая): Замените мат на более мягкие выражения. Рекомендации: заменить \u0027fuck\u0027, \u0027shit\u0027, \u0027bitch\u0027 на \u0027damn\u0027, \u0027hell\u0027 или эвфемизмы."]
     else if 0.3 ≤ s.profanity then
      [ "😠 Грубая лексика: Сократите количество нецензурных слов."]
     else []) ++
    (if 0.4 ≤ s.drugs then
      [ "💊 Наркотики/алкоголь: Уменьшите показ употребления веществ. Рекомендации: показать последствия вместо процесса, сократить экранное время."]
     else []) ++
    (if 0.5 ≤ s.child_risk then
      [ "👶 Дети в опасности: Критически важно! Уберите сцены с угрозой детям. Рекомендации: заменить детей на взрослых персонажей, убрать сцену полностью, или показать, что дети в безопасности."]
     else [])
  if recs = [] then [ "✅ Сцена не содержит значимых проблемных элементов."] else recs

/-- Round half to even (the semantics of Python `round`), at the integers. -/
def roundHalfEven (x : ℚ) : ℤ :=
  let f := Int.floor x
  let r := x - (f : ℚ)
  if r < 1 / 2 then f
  else if 1 / 2 < r then f + 1
  else if f % 2 = 0 then f else f + 1

/-- Python `round(x, d)` on the idealized rational value. -/
def pyround (x : ℚ) (d : Nat) : ℚ := (roundHalfEven (x * 10 ^ d) : ℚ) / 10 ^ d

/-- The per-scene ranking weight (lines 821-828). -/
def scene_weight (s : ScoreVec) : ℚ :=
  s.violence * 0.5 + s.gore * 0.8 + s.sex_act * 0.9 +
    s.profanity * 0.3 + s.drugs * 0.3 + s.child_risk * 0.7

/-- Rounded per-scene scores displayed in a trigger record. -/
structure RoundedScores where
  violence : ℚ
  gore : ℚ
  sex_act : ℚ
  nudity : ℚ
  profanity : ℚ
  drugs : ℚ
  child_risk : ℚ
  deriving Repr, DecidableEq

/-- A `TriggerScene` record (lines 840-847). -/
structure TriggerScene where
  scene_id : Nat
  heading : List Char
  sample_text : List Char
  weight : ℚ
  scores : RoundedScores
  recommendations : List String
  deriving Repr, DecidableEq

/-- Build the trigger record for one ranked entry `(weight, scene, score)`. -/
def mkTrigger (t : ℚ × Scene × ScoreVec) : TriggerScene :=
  let s := t.2.2
  { scene_id := t.2.1.scene_id,
    heading := t.2.1.heading,
    sample_text := ((t.2.1.text.take 300).map fun c => if c = '\n' then ' ' else c) ++
      ( "...".toList),
    weight := pyround t.1 3,
    scores := { violence := pyround s.violence 2, gore := pyround s.gore 2,
                sex_act := pyround s.sex_act 2, nudity := pyround s.nudity 2,
                profanity := pyround s.profanity 2, drugs := pyround s.drugs 2,
                child_risk := pyround s.child_risk 2 },
    recommendations := generate_scene_recommendations s }

/-- The ranked `(weight, scene, score)` list. -/
def rankingOf (scenes : List Scene) (scores : List ScoreVec) :
    List (ℚ × Scene × ScoreVec) :=
  (scenes.zip scores).map fun p => (scene_weight p.2, p.1, p.2)

/-- Stable descending comparison used by `ranking.sort(reverse=True,
key=weight)`. -/
def weightGe (a b : ℚ × Scene × ScoreVec) : Bool := decide (b.1 ≤ a.1)

/-- Trigger-scene selection (lines 819-847): sort the ranking descending by
weight (stably, as the Python sort), take the top 5, and keep only entries of
weight above 0.1, building a record for each. -/
def top_trigger_scenes (scenes : List Scene) (scores : List ScoreVec) :
    List TriggerScene :=
  let sorted := (rankingOf scenes scores).mergeSort weightGe
  ((sorted.take 5).filter fun t => decide ((0.1 : ℚ) < t.1)).map mkTrigger

/-- The document-level analysis (`analyze_script_file`, lines 740-860)
restricted to its pure core: text in, result out.  File reading, progress
output and the embedding model (the `ctxOf` oracle) are external. -/
structure AnalysisResult where
  predicted_rating : String
  reasons : List String
  evidence_excerpts : List (List Char)
  agg : AggScores
  top : List TriggerScene
  total_scenes : Nat

def analyze_document (ctxOf : List Char → CtxScores) (txt : List Char) :
    AnalysisResult :=
  let scenes := parse_script_to_scenes txt
  let features := scenes.map fun sc => extract_scene_features ctxOf sc.text
  let scores := features.map normalize_and_contextualize_scores
  let agg := aggregate_scores scores
  let info := map_scores_to_rating agg
  { predicted_rating := info.rating, reasons := info.reasons,
    evidence_excerpts := info.evidence_excerpts, agg := agg,
    top := top_trigger_scenes scenes scores, total_scenes := scenes.length }

/-- Position of a rating string in the ordered tier ladder
`0+ < 6+ < 12+ < 16+ < 18+`. -/
def ratingTier (r : String) : Nat :=
  if r = "0+" then 0
  else if r = "6+" then 1
  else if r = "12+" then 2
  else if r = "16+" then 3
  else 4

/-- Modelled from the spec sentence behind claim C2 ( "a match survives only
if its context window matches no suppression pattern AND its trimmed
excerpt is at least 10 characters long; the returned count is the true
number of surviving matches"): the number of matches surviving BOTH
filters.  This is the reading of the claim, to be compared with what
`count_pattern_matches` actually returns. -/
def surviving_count_per_claim (patterns : List RE) (text : List Char) : Nat :=
  ((patterns.flatMap fun p => (finditer p text).map (excerptOf text)).filter
    fun e => !(isFalsePositive e) && decide (10 ≤ (strip e).length)).length

/-- `s` occurs as a contiguous slice of `t`. -/
def isSliceOf (s t : List Char) : Prop := ∃ u v, t = u ++ s ++ v

/-! Concrete example inputs used by witnesses and counterexamples. -/

/-- All-zero context-score record. -/
def ctxZero : CtxScores :=
  { graphic_violence := 0, stylized_action := 0, sexual_content := 0,
    mild_romance := 0, horror_violence := 0, profanity_context := 0,
    drug_abuse := 0, child_endangerment := 0, discussion_violence := 0,
    thriller_tension := 0 }

/-- A mixed context-score record exercising several multiplier branches. -/
def ctxMixed : CtxScores :=
  { graphic_violence := 0.7, stylized_action := 0.2, sexual_content := 0.1,
    mild_romance := 0.6, horror_violence := 0.6, profanity_context := 0.3,
    drug_abuse := 0.6, child_endangerment := 0.6, discussion_violence := 0.1,
    thriller_tension := 0.2 }

/-- Empty per-category excerpt lists. -/
def emptyExcerpts : ExcerptsMap :=
  { violence := [], gore := [], sex := [], nudity := [], profanity := [], drugs := [] }

/-- A feature vector with several nonzero counts (length 10). -/
def fMixed : Features :=
  { violence_count := 7, violence_excerpts := [], gore_count := 2, gore_excerpts := [],
    profanity_count := 1, profanity_excerpts := [], drugs_count := 0, drugs_excerpts := [],
    child_count := 3, child_excerpts := [], nudity_count := 0, nudity_excerpts := [],
    sex_count := 1, sex_excerpts := [], length := 10, context_scores := ctxMixed }

/-- The feature vector of the end-to-end scenario of claim C1: one scene of
50 words with 3 surviving violence matches and nothing else. -/
def fC1 : Features :=
  { violence_count := 3, violence_excerpts := [], gore_count := 0, gore_excerpts := [],
    profanity_count := 0, profanity_excerpts := [], drugs_count := 0, drugs_excerpts := [],
    child_count := 0, child_excerpts := [], nudity_count := 0, nudity_excerpts := [],
    sex_count := 0, sex_excerpts := [], length := 50, context_scores := ctxZero }

/-- A feature vector with zero matches in every category (length 50). -/
def fZero : Features :=
  { violence_count := 0, violence_excerpts := [], gore_count := 0, gore_excerpts := [],
    profanity_count := 0, profanity_excerpts := [], drugs_count := 0, drugs_excerpts := [],
    child_count := 0, child_excerpts := [], nudity_count := 0, nudity_excerpts := [],
    sex_count := 0, sex_excerpts := [], length := 50, context_scores := ctxZero }

/-- A score vector with several in-range values. -/
def svHalf : ScoreVec :=
  { violence := 1, gore := 0.5, sex_act := 0.25, nudity := 0, profanity := 1,
    drugs := 0.2, child_risk := 0.5, context_scores := ctxZero, excerpts := emptyExcerpts }

/-- The all-zero score vector. -/
def svZero : ScoreVec :=
  { violence := 0, gore := 0, sex_act := 0, nudity := 0, profanity := 0,
    drugs := 0, child_risk := 0, context_scores := ctxZero, excerpts := emptyExcerpts }

/-- The rating tier (position in `0+ < 6+ < 12+ < 16+ < 18+`) determined by
the rule table of `map_scores_to_rating`, written as a numeric chain over
the same conditions. -/
def ratingNum (agg : AggScores) : Nat :=
  if 0.75 ≤ agg.sex_act ∨ 0.95 ≤ agg.gore then 4
  else if 0.7 < agg.child_risk ∧ (0.5 ≤ agg.sex_act ∨ 0.8 ≤ agg.violence) then 4
  else if (0.8 ≤ agg.violence ∧ 0.7 ≤ agg.gore) ∨ 0.75 ≤ agg.gore then 3
  else if 0.65 ≤ agg.violence ∨ 0.5 ≤ agg.gore then 3
  else if 0.35 ≤ agg.sex_act ∨ 0.4 ≤ agg.nudity then 3
  else if 0.4 ≤ agg.violence ∨ 0.5 ≤ agg.profanity ∨ 0.4 ≤ agg.drugs then 2
  else if 0.2 ≤ agg.violence ∨ 0.3 ≤ agg.profanity then 1
  else 0

end RepairPipeline

namespace RepairPipeline

/-! ### Helper lemmas -/

/-- The inner fold of `count_pattern_matches` over the matches of one pattern:
it adds the non-false-positive excerpts and counts them. -/
theorem matchFold_eq (text : List Char) (ms : List (Nat × Nat)) :
    ∀ acc : Nat × List (List Char),
      ms.foldl (fun acc m =>
        let excerpt := excerptOf text m
        if isFalsePositive excerpt then acc
        else (acc.1 + 1, acc.2 ++ [excerpt])) acc =
      (acc.1 + ((ms.map (excerptOf text)).filter fun e => !(isFalsePositive e)).length,
       acc.2 ++ ((ms.map (excerptOf text)).filter fun e => !(isFalsePositive e))) := by
  induction ms with
  | nil => intro acc; simp
  | cons m ms ih =>
    intro acc
    simp only [List.foldl_cons, List.map_cons, List.filter_cons]
    cases h : isFalsePositive (excerptOf text m) with
    | true => simp [h, ih]
    | false => simp [h, ih]; omega

/-- The outer fold of `count_pattern_matches` over the pattern list. -/
theorem patternFold_eq (text : List Char) (patterns : List RE) :
    ∀ acc : Nat × List (List Char),
      patterns.foldl (fun acc pat =>
        (finditer pat text).foldl (fun acc m =>
          let excerpt := excerptOf text m
          if isFalsePositive excerpt then acc
          else (acc.1 + 1, acc.2 ++ [excerpt])) acc) acc =
      (acc.1 + ((patterns.flatMap fun p => (finditer p text).map (excerptOf text)).filter
          fun e => !(isFalsePositive e)).length,
       acc.2 ++ ((patterns.flatMap fun p => (finditer p text).map (excerptOf text)).filter
          fun e => !(isFalsePositive e))) := by
  induction patterns with
  | nil => intro acc; simp
  | cons p ps ih =>
    intro acc
    rw [List.foldl_cons, matchFold_eq, ih]
    simp [List.flatMap_cons, List.filter_append, Nat.add_assoc]

/-- Characterization of `count_pattern_matches`: the count is the number of
matches surviving false-positive suppression (only), and the excerpt list
additionally drops short trimmed excerpts and is capped at 5. -/
theorem count_pattern_matches_eq (patterns : List RE) (text : List Char) :
    count_pattern_matches patterns text =
      (((patterns.flatMap fun p => (finditer p text).map (excerptOf text)).filter
          fun e => !(isFalsePositive e)).length,
       ((((patterns.flatMap fun p => (finditer p text).map (excerptOf text)).filter
          fun e => !(isFalsePositive e)).filter fun m => 10 < (strip m).length)).take 5) := by
  unfold count_pattern_matches
  rw [patternFold_eq]
  simp

/-- `partsAux` produces one more fragment than there are split positions. -/
theorem partsAux_length (text : List Char) :
    ∀ (ps : List Nat) (prev : Nat), (partsAux text prev ps).length = ps.length + 1 := by
  intro ps
  induction ps with
  | nil => intro prev; simp [partsAux]
  | cons p rest ih => intro prev; simp [partsAux, ih]

/-- The segmentation loop keeps at most one scene per fragment. -/
theorem buildScenes_length_le :
    ∀ (ps : List (List Char)) (idx : Nat), (buildScenes ps idx).length ≤ ps.length := by
  intro ps
  induction ps with
  | nil => intro idx; simp [buildScenes]
  | cons p rest ih =>
    intro idx
    simp only [buildScenes]
    split
    · exact Nat.le_succ_of_le (ih idx)
    · simpa using ih (idx + 1)

/-- `getD` stays in the list when the index is in range. -/
theorem getD_mem_of_lt {s : List ℚ} {i : Nat} (hi : i < s.length) : s.getD i 0 ∈ s := by
  rw [List.getD_eq_getElem?_getD, List.getElem?_eq_getElem hi]
  exact List.getElem_mem hi

/-- `getD` of an all-zero list is zero. -/
theorem getD_eq_zero_of_all_zero {s : List ℚ} (h : ∀ x ∈ s, x = 0) (i : Nat) :
    s.getD i 0 = 0 := by
  rw [List.getD_eq_getElem?_getD]
  cases hg : s[i]? with
  | none => rfl
  | some x => simpa using h x (List.getElem?_mem hg)

/-- The interpolated percentile of a nonempty list with entries in `[0,1]`
stays in `[0,1]` (for `0 ≤ q ≤ 100`). -/
theorem percentileSorted_bounds (q : ℚ) (hq0 : 0 ≤ q) (hq1 : q ≤ 100) {s : List ℚ}
    (hsne : s ≠ []) (h : ∀ x ∈ s, 0 ≤ x ∧ x ≤ 1) :
    0 ≤ percentileSorted q s ∧ percentileSorted q s ≤ 1 := by
  simp only [percentileSorted]
  have hn : 1 ≤ s.length := List.length_pos.2 hsne
  have hn1 : (1 : ℚ) ≤ (s.length : ℚ) := by exact_mod_cast hn
  set v : ℚ := q * ((s.length : ℚ) - 1) / 100 with hvdef
  have hv0 : 0 ≤ v := by
    apply div_nonneg _ (by norm_num)
    exact mul_nonneg hq0 (by linarith)
  have hvle : v ≤ (s.length : ℚ) - 1 := by
    rw [hvdef, div_le_iff₀ (by norm_num : (0 : ℚ) < 100)]
    nlinarith
  have hfl0 : 0 ≤ Int.floor v := Int.floor_nonneg.2 hv0
  set k : Nat := (Int.floor v).toNat with hkdef
  have hkcast : (k : ℚ) = ((Int.floor v : ℤ) : ℚ) := by
    rw [hkdef]
    exact_mod_cast congrArg (fun z : ℤ => (z : ℚ)) (Int.toNat_of_nonneg hfl0)
  have hkv : (k : ℚ) ≤ v := by rw [hkcast]; exact Int.floor_le v
  have hg0 : 0 ≤ v - (k : ℚ) := by linarith
  have hg1 : v - (k : ℚ) ≤ 1 := by
    have hlt := Int.lt_floor_add_one v
    rw [hkcast]
    linarith
  have hkn : k < s.length := by
    have hc : ((Int.floor v : ℤ) : ℚ) ≤ (s.length : ℚ) - 1 := le_trans (Int.floor_le v) hvle
    have hc2 : Int.floor v ≤ (s.length : ℤ) - 1 := by exact_mod_cast hc
    omega
  have hk'n : min (k + 1) (s.length - 1) < s.length := by omega
  obtain ⟨ha0, ha1⟩ := h _ (getD_mem_of_lt hkn)
  obtain ⟨hb0, hb1⟩ := h _ (getD_mem_of_lt hk'n)
  set a := s.getD k 0
  set b := s.getD (min (k + 1) (s.length - 1)) 0
  constructor
  · nlinarith [mul_nonneg hg0 hb0,
      mul_nonneg (by linarith : (0 : ℚ) ≤ 1 - (v - (k : ℚ))) ha0]
  · nlinarith [mul_nonneg hg0 (by linarith : (0 : ℚ) ≤ 1 - b),
      mul_nonneg (by linarith : (0 : ℚ) ≤ 1 - (v - (k : ℚ))) (by linarith : (0 : ℚ) ≤ 1 - a)]

/-- Bounds for `percentile` on nonempty lists with entries in `[0,1]`. -/
theorem percentile_bounds (q : ℚ) (hq0 : 0 ≤ q) (hq1 : q ≤ 100) {l : List ℚ}
    (hne : l ≠ []) (h : ∀ x ∈ l, 0 ≤ x ∧ x ≤ 1) :
    0 ≤ percentile q l ∧ percentile q l ≤ 1 := by
  unfold percentile
  have hsne : l.mergeSort (fun a b => decide (a ≤ b)) ≠ [] := by
    intro hc
    apply hne
    have hlen := congrArg List.length hc
    rw [List.length_mergeSort] at hlen
    exact List.length_eq_zero.1 hlen
  have hmem : ∀ x ∈ l.mergeSort (fun a b => decide (a ≤ b)), 0 ≤ x ∧ x ≤ 1 := by
    intro x hx
    exact h x (List.mem_mergeSort.1 hx)
  simp only [List.isEmpty_iff, hsne, if_false]
  exact percentileSorted_bounds q hq0 hq1 hsne hmem

/-- `percentile` of an all-zero list is zero. -/
theorem percentile_of_all_zero (q : ℚ) {l : List ℚ} (h : ∀ x ∈ l, x = 0) :
    percentile q l = 0 := by
  simp only [percentile]
  have hmem : ∀ x ∈ l.mergeSort (fun a b => decide (a ≤ b)), x = 0 := by
    intro x hx
    exact h x (List.mem_mergeSort.1 hx)
  split
  · rfl
  · simp only [percentileSorted, getD_eq_zero_of_all_zero hmem]
    ring

/-- `percentile` of a one-element list is that element. -/
theorem percentile_singleton (q a : ℚ) : percentile q [a] = a := by
  have hms : ([a] : List ℚ).mergeSort (fun a b => decide (a ≤ b)) = [a] := by
    simp [List.mergeSort]
  unfold percentile
  rw [hms]
  simp [percentileSorted]

/-- `foldl max` is bounded above by any bound on the seed and the list. -/
theorem foldl_max_le {hi : ℚ} :
    ∀ {l : List ℚ}, (∀ x ∈ l, x ≤ hi) → ∀ {acc : ℚ}, acc ≤ hi → l.foldl max acc ≤ hi := by
  intro l
  induction l with
  | nil => intro _ acc hacc; simpa using hacc
  | cons x xs ih =>
    intro h acc hacc
    simp only [List.foldl_cons]
    exact ih (fun y hy => h y (List.mem_cons_of_mem _ hy))
      (max_le hacc (h x (List.mem_cons_self _ _)))

/-- The seed is a lower bound of `foldl max`. -/
theorem le_foldl_max {lo : ℚ} :
    ∀ {l : List ℚ} {acc : ℚ}, lo ≤ acc → lo ≤ l.foldl max acc := by
  intro l
  induction l with
  | nil => intro acc hacc; simpa using hacc
  | cons x xs ih =>
    intro acc hacc
    simp only [List.foldl_cons]
    exact ih (le_trans hacc (le_max_left _ _))

/-- Bounds for `npmax` on nonempty lists with entries in `[0,1]`. -/
theorem npmax_bounds {l : List ℚ} (hne : l ≠ []) (h : ∀ x ∈ l, 0 ≤ x ∧ x ≤ 1) :
    0 ≤ npmax l ∧ npmax l ≤ 1 := by
  cases l with
  | nil => exact absurd rfl hne
  | cons x xs =>
    constructor
    · exact le_foldl_max (h x (List.mem_cons_self _ _)).1
    · exact foldl_max_le (fun y hy => (h y (List.mem_cons_of_mem _ hy)).2)
        (h x (List.mem_cons_self _ _)).2

/-- `npmax` of an all-zero list is zero. -/
theorem npmax_of_all_zero {l : List ℚ} (h : ∀ x ∈ l, x = 0) : npmax l = 0 := by
  cases l with
  | nil => rfl
  | cons x xs =>
    have hb1 : (0 : ℚ) ≤ npmax (x :: xs) :=
      le_foldl_max (le_of_eq (h x (List.mem_cons_self _ _)).symm)
    have hb2 : npmax (x :: xs) ≤ 0 :=
      foldl_max_le (fun y hy => le_of_eq (h y (List.mem_cons_of_mem _ hy)))
        (le_of_eq (h x (List.mem_cons_self _ _)))
    linarith

/-- The contextual violence multiplier is positive. -/
theorem violence_multiplier_pos (ctx : CtxScores) : 0 < violence_multiplier ctx := by
  unfold violence_multiplier
  split_ifs <;> norm_num

/-- The contextual gore multiplier is positive. -/
theorem gore_multiplier_pos (ctx : CtxScores) : 0 < gore_multiplier ctx := by
  unfold gore_multiplier
  split_ifs <;> norm_num

/-- `min c x` lies in `[0,1]` when `0 ≤ c ≤ 1` and `0 ≤ x`. -/
theorem min_cap_bounds {c x : ℚ} (hc0 : 0 ≤ c) (hc1 : c ≤ 1) (hx : 0 ≤ x) :
    0 ≤ min c x ∧ min c x ≤ 1 :=
  ⟨le_min hc0 hx, le_trans (min_le_left _ _) hc1⟩

/-- The raw violence density score is nonnegative. -/
theorem violence_raw_nonneg (f : Features) : 0 ≤ violence_raw f := by
  unfold violence_raw
  positivity

/-- The raw gore density score is nonnegative. -/
theorem gore_raw_nonneg (f : Features) : 0 ≤ gore_raw f := by
  unfold gore_raw
  positivity

/-- The violence/gore aggregation statistic `0.7*max + 0.3*p95` stays in
`[0,1]` on values in `[0,1]`. -/
theorem vg_agg_bounds {vals : List ℚ} (hne : vals ≠ []) (h : ∀ x ∈ vals, 0 ≤ x ∧ x ≤ 1) :
    0 ≤ npmax vals * 0.7 + percentile 95 vals * 0.3 ∧
    npmax vals * 0.7 + percentile 95 vals * 0.3 ≤ 1 := by
  obtain ⟨h1, h2⟩ := npmax_bounds hne h
  obtain ⟨h3, h4⟩ := percentile_bounds 95 (by norm_num) (by norm_num) hne h
  constructor <;> linarith

/-- The peak-dominated aggregation statistic `0.85*max + 0.15*p90` stays in
`[0,1]` on values in `[0,1]`. -/
theorem sx_agg_bounds {vals : List ℚ} (hne : vals ≠ []) (h : ∀ x ∈ vals, 0 ≤ x ∧ x ≤ 1) :
    0 ≤ npmax vals * 0.85 + percentile 90 vals * 0.15 ∧
    npmax vals * 0.85 + percentile 90 vals * 0.15 ≤ 1 := by
  obtain ⟨h1, h2⟩ := npmax_bounds hne h
  obtain ⟨h3, h4⟩ := percentile_bounds 90 (by norm_num) (by norm_num) hne h
  constructor <;> linarith

/-- The 90th-percentile aggregation statistic stays in `[0,1]`. -/
theorem pd_agg_bounds {vals : List ℚ} (hne : vals ≠ []) (h : ∀ x ∈ vals, 0 ≤ x ∧ x ≤ 1) :
    0 ≤ percentile 90 vals ∧ percentile 90 vals ≤ 1 :=
  percentile_bounds 90 (by norm_num) (by norm_num) hne h

/-- `weightGe` is transitive. -/
theorem weightGe_trans : ∀ (a b c : ℚ × Scene × ScoreVec),
    weightGe a b → weightGe b c → weightGe a c := by
  intro a b c hab hbc
  simp only [weightGe, decide_eq_true_eq] at *
  exact le_trans hbc hab

/-- `weightGe` is total. -/
theorem weightGe_total : ∀ (a b : ℚ × Scene × ScoreVec),
    weightGe a b || weightGe b a := by
  intro a b
  rcases le_total a.1 b.1 with h | h <;> simp [weightGe, h]

/-- On a list sorted by nonincreasing weight, taking a prefix and then
filtering by a weight threshold is the same as filtering first and then
taking the prefix. -/
theorem take_filter_comm {α : Type} (w : α → ℚ) (c : ℚ) :
    ∀ (l : List α), l.Pairwise (fun x y => w y ≤ w x) →
      ∀ n, (l.take n).filter (fun x => decide (c < w x)) =
        (l.filter (fun x => decide (c < w x))).take n := by
  intro l
  induction l with
  | nil => intro _ n; simp
  | cons x xs ih =>
    intro hp n
    obtain ⟨hx, hxs⟩ := List.pairwise_cons.1 hp
    cases n with
    | zero => simp
    | succ n =>
      simp only [List.take_succ_cons, List.filter_cons]
      cases hc : decide (c < w x) with
      | true =>
        simp only [hc, if_true, List.take_succ_cons]
        rw [ih hxs n]
      | false =>
        have hwx : w x ≤ c := by
          have := of_decide_eq_false hc
          exact le_of_not_lt this
        have hall : ∀ y ∈ xs, ¬(decide (c < w y) = true) := by
          intro y hy
          simp only [decide_eq_true_eq]
          exact not_lt.2 (le_trans (hx y hy) hwx)
        simp only [hc, Bool.false_eq_true, if_false]
        rw [List.filter_eq_nil_iff.2 hall, List.filter_eq_nil_iff.2
          (fun y hy => hall y (List.take_subset n xs hy))]
        simp

/-- Any drop/take slice of a text is a contiguous slice of it. -/
theorem slice_isSliceOf (text : List Char) (i n : Nat) :
    isSliceOf ((text.drop i).take n) text :=
  ⟨text.take i, (text.drop i).drop n, by
    rw [List.append_assoc, List.take_append_drop, List.take_append_drop]⟩

/-- Every excerpt returned by the matcher is the trimmed form of a
contiguous slice of the matched text. -/
theorem excerpt_mem_is_trimmed_slice (patterns : List RE) (text : List Char)
    {e : List Char} (he : e ∈ (count_pattern_matches patterns text).2) :
    ∃ s, isSliceOf s text ∧ e = strip s := by
  rw [count_pattern_matches_eq] at he
  have h1 : e ∈ ((patterns.flatMap fun p => (finditer p text).map (excerptOf text)).filter
      fun e => !(isFalsePositive e)).filter fun m => 10 < (strip m).length :=
    List.take_subset _ _ he
  have h2 := (List.mem_filter.1 h1).1
  have h3 := (List.mem_filter.1 h2).1
  obtain ⟨p, hp, hm⟩ := List.mem_flatMap.1 h3
  obtain ⟨m, hmm, rfl⟩ := List.mem_map.1 hm
  exact ⟨(text.drop (m.1 - 50)).take (min text.length (m.2 + 50) - (m.1 - 50)),
    slice_isSliceOf _ _ _, rfl⟩

/-! ### Claim theorems -/

/-- C6: the lexical matcher with the violence pattern list returns count 0
on "if it kills me" (suppressed) and count ≥ 1 on "he killed the soldier
with a knife" (not suppressed). -/
theorem c6_false_positive_suppression :
    (count_pattern_matches VIOLENCE_WORDS ( "if it kills me".toList)).1 = 0 ∧
    1 ≤ (count_pattern_matches VIOLENCE_WORDS
      ( "he killed the soldier with a knife".toList)).1 := by
  decide

/-- C2 counterexample: the claim says the returned count equals the number
of matches surviving both false-positive suppression and the 10-character
excerpt filter.  On the pattern `\bwar\b` and the text "war" the surviving
count in the sense of the claim is 0 (the excerpt "war" is shorter than 10
characters) yet the matcher returns count 1: the length filter does not
affect the count. -/
theorem c2_counterexample :
    (count_pattern_matches [ bB "war"] ( "war".toList)).1 = 1 ∧
    surviving_count_per_claim [ bB "war"] ( "war".toList) = 0 := by
  decide

/-- C2 (amended): the returned count equals the number of matches whose
context window survives false-positive suppression alone; the trimmed-length
filter (keeping excerpts longer than 10 characters) applies only to the
returned excerpt list, which is additionally capped at 5. -/
theorem c2_count_counts_suppression_survivors (patterns : List RE) (text : List Char) :
    (count_pattern_matches patterns text).1 =
      ((patterns.flatMap fun p => (finditer p text).map (excerptOf text)).filter
        fun e => !(isFalsePositive e)).length ∧
    (count_pattern_matches patterns text).2 =
      (((patterns.flatMap fun p => (finditer p text).map (excerptOf text)).filter
        fun e => !(isFalsePositive e)).filter fun m => 10 < (strip m).length).take 5 := by
  rw [count_pattern_matches_eq]
  exact ⟨rfl, rfl⟩

/-- C3 counterexample: a document whose text contains exactly 2 recognized
scene-marker tokens (both beginning a line) segments into 3 scenes, not 1:
the part before the first marker also becomes a scene.  This refutes the
claim that fewer than 3 markers always collapse to a single scene. -/
theorem c3_counterexample :
    (splitPositions (( "this is a preamble text with no markers at all\n" ++
        "INT. KITCHEN - DAY\nsomething happens here in the kitchen\n" ++
        "EXT. STREET - NIGHT\nanother thing happens outside").toList)).length = 2 ∧
    (parse_script_to_scenes (( "this is a preamble text with no markers at all\n" ++
        "INT. KITCHEN - DAY\nsomething happens here in the kitchen\n" ++
        "EXT. STREET - NIGHT\nanother thing happens outside").toList)).length = 3 := by
  decide

/-- C3 (amended): a document containing fewer than 2 recognized scene-marker
occurrences (anywhere in the text) segments into exactly one scene whose
text is the entire document, under the sentinel heading. -/
theorem c3_single_scene_fallback (txt : List Char)
    (h : (splitPositions txt).length < 2) :
    parse_script_to_scenes txt =
      [{ scene_id := 0, heading := ( "full_script".toList), text := txt }] := by
  unfold parse_script_to_scenes
  have h1 : (buildScenes (partsAux txt 0 (splitPositions txt)) 0).length < 3 := by
    calc (buildScenes (partsAux txt 0 (splitPositions txt)) 0).length
        ≤ (partsAux txt 0 (splitPositions txt)).length := buildScenes_length_le _ 0
      _ = (splitPositions txt).length + 1 := partsAux_length txt _ 0
      _ < 3 := by omega
  simp [h1]

/-- Witness for the amended C3 at a concrete marker-free document. -/
theorem c3_single_scene_fallback_witness :
    parse_script_to_scenes ( "just some plain text with no markers in it".toList) =
      [{ scene_id := 0, heading := ( "full_script".toList),
         text := ( "just some plain text with no markers in it".toList) }] :=
  c3_single_scene_fallback ( "just some plain text with no markers in it".toList)
    (by decide)

/-- C5: for every feature vector (match counts are naturals, scene length
≥ 1, arbitrary rational context scores) all 7 per-scene scores lie in
`[0,1]`, and for every nonempty list of score vectors with entries in
`[0,1]` all 7 aggregated document scores lie in `[0,1]`. -/
theorem c5_range_invariant (f : Features) (hL : 1 ≤ f.length)
    (scores : List ScoreVec) (hne : scores ≠ [])
    (hb : ∀ s ∈ scores,
      (0 ≤ s.violence ∧ s.violence ≤ 1) ∧ (0 ≤ s.gore ∧ s.gore ≤ 1) ∧
      (0 ≤ s.sex_act ∧ s.sex_act ≤ 1) ∧ (0 ≤ s.nudity ∧ s.nudity ≤ 1) ∧
      (0 ≤ s.profanity ∧ s.profanity ≤ 1) ∧ (0 ≤ s.drugs ∧ s.drugs ≤ 1) ∧
      (0 ≤ s.child_risk ∧ s.child_risk ≤ 1)) :
    ((0 ≤ (normalize_and_contextualize_scores f).violence ∧
        (normalize_and_contextualize_scores f).violence ≤ 1) ∧
     (0 ≤ (normalize_and_contextualize_scores f).gore ∧
        (normalize_and_contextualize_scores f).gore ≤ 1) ∧
     (0 ≤ (normalize_and_contextualize_scores f).sex_act ∧
        (normalize_and_contextualize_scores f).sex_act ≤ 1) ∧
     (0 ≤ (normalize_and_contextualize_scores f).nudity ∧
        (normalize_and_contextualize_scores f).nudity ≤ 1) ∧
     (0 ≤ (normalize_and_contextualize_scores f).profanity ∧
        (normalize_and_contextualize_scores f).profanity ≤ 1) ∧
     (0 ≤ (normalize_and_contextualize_scores f).drugs ∧
        (normalize_and_contextualize_scores f).drugs ≤ 1) ∧
     (0 ≤ (normalize_and_contextualize_scores f).child_risk ∧
        (normalize_and_contextualize_scores f).child_risk ≤ 1)) ∧
    ((0 ≤ (aggregate_scores scores).violence ∧ (aggregate_scores scores).violence ≤ 1) ∧
     (0 ≤ (aggregate_scores scores).gore ∧ (aggregate_scores scores).gore ≤ 1) ∧
     (0 ≤ (aggregate_scores scores).sex_act ∧ (aggregate_scores scores).sex_act ≤ 1) ∧
     (0 ≤ (aggregate_scores scores).nudity ∧ (aggregate_scores scores).nudity ≤ 1) ∧
     (0 ≤ (aggregate_scores scores).profanity ∧ (aggregate_scores scores).profanity ≤ 1) ∧
     (0 ≤ (aggregate_scores scores).drugs ∧ (aggregate_scores scores).drugs ≤ 1) ∧
     (0 ≤ (aggregate_scores scores).child_risk ∧ (aggregate_scores scores).child_risk ≤ 1)) := by
  constructor
  · simp only [normalize_and_contextualize_scores]
    refine ⟨min_cap_bounds (by norm_num) (by norm_num)
        (mul_nonneg (violence_raw_nonneg f) (violence_multiplier_pos f.context_scores).le),
      min_cap_bounds (by norm_num) (by norm_num)
        (mul_nonneg (gore_raw_nonneg f) (gore_multiplier_pos f.context_scores).le),
      ?_, ?_, ?_, ?_, ?_⟩
    · split_ifs <;> exact min_cap_bounds (by norm_num) (by norm_num) (by positivity)
    · exact min_cap_bounds (by norm_num) (by norm_num) (by positivity)
    · exact min_cap_bounds (by norm_num) (by norm_num) (by positivity)
    · split_ifs <;> exact min_cap_bounds (by norm_num) (by norm_num) (by positivity)
    · split_ifs with h1 h2
      · exact min_cap_bounds (by norm_num) (by norm_num) (by positivity)
      · exact min_cap_bounds (by norm_num) (by norm_num) (by positivity)
      · norm_num
  · have hproj : ∀ (g : ScoreVec → ℚ), (∀ s ∈ scores, 0 ≤ g s ∧ g s ≤ 1) →
        (scores.map g ≠ [] ∧ ∀ x ∈ scores.map g, 0 ≤ x ∧ x ≤ 1) := by
      intro g hg
      constructor
      · intro hcon
        exact hne (by simpa using hcon)
      · intro x hx
        obtain ⟨s, hsmem, rfl⟩ := List.mem_map.1 hx
        exact hg s hsmem
    obtain ⟨hv1, hv2⟩ := hproj (·.violence) (fun s hs => (hb s hs).1)
    obtain ⟨hg1, hg2⟩ := hproj (·.gore) (fun s hs => (hb s hs).2.1)
    obtain ⟨hs1, hs2⟩ := hproj (·.sex_act) (fun s hs => (hb s hs).2.2.1)
    obtain ⟨hn1, hn2⟩ := hproj (·.nudity) (fun s hs => (hb s hs).2.2.2.1)
    obtain ⟨hp1, hp2⟩ := hproj (·.profanity) (fun s hs => (hb s hs).2.2.2.2.1)
    obtain ⟨hd1, hd2⟩ := hproj (·.drugs) (fun s hs => (hb s hs).2.2.2.2.2.1)
    obtain ⟨hc1, hc2⟩ := hproj (·.child_risk) (fun s hs => (hb s hs).2.2.2.2.2.2)
    simp only [aggregate_scores]
    exact ⟨vg_agg_bounds hv1 hv2, vg_agg_bounds hg1 hg2, sx_agg_bounds hs1 hs2,
      sx_agg_bounds hn1 hn2, pd_agg_bounds hp1 hp2, pd_agg_bounds hd1 hd2,
      sx_agg_bounds hc1 hc2⟩

/-- Witness for C5 at a concrete feature vector and score-vector list. -/
theorem c5_range_invariant_witness :
    (0 ≤ (normalize_and_contextualize_scores fMixed).violence ∧
      (normalize_and_contextualize_scores fMixed).violence ≤ 1) ∧
    (0 ≤ (aggregate_scores [svHalf]).violence ∧ (aggregate_scores [svHalf]).violence ≤ 1) := by
  have h := c5_range_invariant fMixed (by decide) [svHalf] (by decide)
    (by intro s hs
        simp only [List.mem_singleton] at hs
        subst hs
        norm_num [svHalf])
  exact ⟨h.1.1, h.2.1⟩

/-- C7: a scene with zero surviving matches in every category and neutral
context scores (all < 0.5) gets score 0 in every category; a document whose
scenes all carry all-zero score vectors aggregates to 0 in every category
and is rated 0+. -/
theorem c7_zero_evidence_zero_rating (f : Features)
    (hcounts : f.violence_count = 0 ∧ f.gore_count = 0 ∧ f.profanity_count = 0 ∧
      f.drugs_count = 0 ∧ f.child_count = 0 ∧ f.nudity_count = 0 ∧ f.sex_count = 0)
    (hctx : f.context_scores.graphic_violence < 0.5 ∧
      f.context_scores.stylized_action < 0.5 ∧ f.context_scores.sexual_content < 0.5 ∧
      f.context_scores.mild_romance < 0.5 ∧ f.context_scores.horror_violence < 0.5 ∧
      f.context_scores.profanity_context < 0.5 ∧ f.context_scores.drug_abuse < 0.5 ∧
      f.context_scores.child_endangerment < 0.5 ∧
      f.context_scores.discussion_violence < 0.5 ∧ f.context_scores.thriller_tension < 0.5)
    (scores : List ScoreVec) (hne : scores ≠ [])
    (hzero : ∀ s ∈ scores, s.violence = 0 ∧ s.gore = 0 ∧ s.sex_act = 0 ∧ s.nudity = 0 ∧
      s.profanity = 0 ∧ s.drugs = 0 ∧ s.child_risk = 0) :
    ((normalize_and_contextualize_scores f).violence = 0 ∧
     (normalize_and_contextualize_scores f).gore = 0 ∧
     (normalize_and_contextualize_scores f).sex_act = 0 ∧
     (normalize_and_contextualize_scores f).nudity = 0 ∧
     (normalize_and_contextualize_scores f).profanity = 0 ∧
     (normalize_and_contextualize_scores f).drugs = 0 ∧
     (normalize_and_contextualize_scores f).child_risk = 0) ∧
    ((aggregate_scores scores).violence = 0 ∧ (aggregate_scores scores).gore = 0 ∧
     (aggregate_scores scores).sex_act = 0 ∧ (aggregate_scores scores).nudity = 0 ∧
     (aggregate_scores scores).profanity = 0 ∧ (aggregate_scores scores).drugs = 0 ∧
     (aggregate_scores scores).child_risk = 0) ∧
    (map_scores_to_rating (aggregate_scores scores)).rating = "0+" := by
  obtain ⟨hv, hg, hp, hd, hc, hn, hs⟩ := hcounts
  have hmapz : ∀ (g : ScoreVec → ℚ), (∀ s ∈ scores, g s = 0) →
      ∀ x ∈ scores.map g, x = 0 := by
    intro g hg0 x hx
    obtain ⟨s, hsmem, rfl⟩ := List.mem_map.1 hx
    exact hg0 s hsmem
  have aggv : (aggregate_scores scores).violence = 0 := by
    simp only [aggregate_scores]
    rw [npmax_of_all_zero (hmapz _ fun s hs0 => (hzero s hs0).1),
      percentile_of_all_zero 95 (hmapz _ fun s hs0 => (hzero s hs0).1)]
    ring
  have aggg : (aggregate_scores scores).gore = 0 := by
    simp only [aggregate_scores]
    rw [npmax_of_all_zero (hmapz _ fun s hs0 => (hzero s hs0).2.1),
      percentile_of_all_zero 95 (hmapz _ fun s hs0 => (hzero s hs0).2.1)]
    ring
  have aggs : (aggregate_scores scores).sex_act = 0 := by
    simp only [aggregate_scores]
    rw [npmax_of_all_zero (hmapz _ fun s hs0 => (hzero s hs0).2.2.1),
      percentile_of_all_zero 90 (hmapz _ fun s hs0 => (hzero s hs0).2.2.1)]
    ring
  have aggn : (aggregate_scores scores).nudity = 0 := by
    simp only [aggregate_scores]
    rw [npmax_of_all_zero (hmapz _ fun s hs0 => (hzero s hs0).2.2.2.1),
      percentile_of_all_zero 90 (hmapz _ fun s hs0 => (hzero s hs0).2.2.2.1)]
    ring
  have aggp : (aggregate_scores scores).profanity = 0 := by
    simp only [aggregate_scores]
    rw [percentile_of_all_zero 90 (hmapz _ fun s hs0 => (hzero s hs0).2.2.2.2.1)]
  have aggd : (aggregate_scores scores).drugs = 0 := by
    simp only [aggregate_scores]
    rw [percentile_of_all_zero 90 (hmapz _ fun s hs0 => (hzero s hs0).2.2.2.2.2.1)]
  have aggc : (aggregate_scores scores).child_risk = 0 := by
    simp only [aggregate_scores]
    rw [npmax_of_all_zero (hmapz _ fun s hs0 => (hzero s hs0).2.2.2.2.2.2),
      percentile_of_all_zero 90 (hmapz _ fun s hs0 => (hzero s hs0).2.2.2.2.2.2)]
    ring
  refine ⟨?_, ⟨aggv, aggg, aggs, aggn, aggp, aggd, aggc⟩, ?_⟩
  · simp only [normalize_and_contextualize_scores, violence_raw, gore_raw,
      hv, hg, hp, hd, hc, hn, hs]
    split_ifs <;> norm_num [min_def]
  · simp only [map_scores_to_rating, aggv, aggg, aggs, aggn, aggp, aggd, aggc]
    norm_num

/-- Witness for C7 at the zero feature vector and a one-scene all-zero
score list. -/
theorem c7_zero_evidence_zero_rating_witness :
    (normalize_and_contextualize_scores fZero).violence = 0 ∧
    (aggregate_scores [svZero]).violence = 0 ∧
    (map_scores_to_rating (aggregate_scores [svZero])).rating = "0+" := by
  have h := c7_zero_evidence_zero_rating fZero (by norm_num [fZero])
    (by norm_num [fZero, ctxZero]) [svZero] (by simp)
    (by intro s hs
        simp only [List.mem_singleton] at hs
        subst hs
        norm_num [svZero])
  exact ⟨h.1.1, h.2.1.1, h.2.2⟩

/-- C1: for a single 50-word scene with 3 surviving violence matches, no
matches in any other category and neutral context scores, the raw violence
score is 6, the multiplier is 1, the scene violence score clamps to 1, the
aggregated violence score is 1, and the rating is `16+` with the reason
"интенсивное насилие и сцены убийств". -/
theorem c1_end_to_end (f : Features)
    (hlen : f.length = 50) (hv : f.violence_count = 3)
    (hcounts : f.gore_count = 0 ∧ f.profanity_count = 0 ∧ f.drugs_count = 0 ∧
      f.child_count = 0 ∧ f.nudity_count = 0 ∧ f.sex_count = 0)
    (hctx : f.context_scores.graphic_violence < 0.6 ∧
      f.context_scores.stylized_action < 0.5 ∧ f.context_scores.sexual_content < 0.5 ∧
      f.context_scores.mild_romance < 0.5 ∧ f.context_scores.horror_violence < 0.55 ∧
      f.context_scores.profanity_context < 0.5 ∧ f.context_scores.drug_abuse < 0.5 ∧
      f.context_scores.child_endangerment < 0.5 ∧
      f.context_scores.discussion_violence < 0.55 ∧
      f.context_scores.thriller_tension < 0.5) :
    violence_raw f = 6 ∧
    violence_multiplier f.context_scores = 1 ∧
    (normalize_and_contextualize_scores f).violence = 1 ∧
    (aggregate_scores [normalize_and_contextualize_scores f]).violence = 1 ∧
    (map_scores_to_rating
      (aggregate_scores [normalize_and_contextualize_scores f])).rating = "16+" ∧
    "интенсивное насилие и сцены убийств" ∈
      (map_scores_to_rating
        (aggregate_scores [normalize_and_contextualize_scores f])).reasons := by
  obtain ⟨hg, hp, hd, hc, hn, hs⟩ := hcounts
  obtain ⟨x1, x2, x3, x4, x5, x6, x7, x8, x9, x10⟩ := hctx
  have hraw : violence_raw f = 6 := by
    unfold violence_raw
    rw [hv, hlen]
    norm_num
  have hmul : violence_multiplier f.context_scores = 1 := by
    have hA : ¬(0.55 < f.context_scores.discussion_violence ∨
        0.5 < f.context_scores.thriller_tension) := by
      push_neg
      exact ⟨x9.le, x10.le⟩
    have hB : ¬(0.5 < f.context_scores.stylized_action) := not_lt.2 x2.le
    have hC : ¬(0.6 < f.context_scores.graphic_violence) := not_lt.2 x1.le
    have hD : ¬(0.55 < f.context_scores.horror_violence) := not_lt.2 x5.le
    simp [violence_multiplier, hA, hB, hC, hD]
    norm_num
  have hscore : (normalize_and_contextualize_scores f).violence = 1 := by
    simp only [normalize_and_contextualize_scores]
    rw [hraw, hmul]
    norm_num
  have hzg : (normalize_and_contextualize_scores f).gore = 0 := by
    simp only [normalize_and_contextualize_scores, gore_raw, hg]
    norm_num
  have hzs : (normalize_and_contextualize_scores f).sex_act = 0 := by
    simp only [normalize_and_contextualize_scores, hs]
    split_ifs <;> norm_num [min_def]
  have hzn : (normalize_and_contextualize_scores f).nudity = 0 := by
    simp only [normalize_and_contextualize_scores, hn]
    norm_num
  have hzc : (normalize_and_contextualize_scores f).child_risk = 0 := by
    simp only [normalize_and_contextualize_scores, hc]
    norm_num
  have haggv : (aggregate_scores [normalize_and_contextualize_scores f]).violence = 1 := by
    simp only [aggregate_scores, List.map_cons, List.map_nil]
    rw [percentile_singleton, hscore]
    norm_num [npmax]
  have haggg : (aggregate_scores [normalize_and_contextualize_scores f]).gore = 0 := by
    simp only [aggregate_scores, List.map_cons, List.map_nil]
    rw [percentile_singleton, hzg]
    norm_num [npmax]
  have haggs : (aggregate_scores [normalize_and_contextualize_scores f]).sex_act = 0 := by
    simp only [aggregate_scores, List.map_cons, List.map_nil]
    rw [percentile_singleton, hzs]
    norm_num [npmax]
  have haggn : (aggregate_scores [normalize_and_contextualize_scores f]).nudity = 0 := by
    simp only [aggregate_scores, List.map_cons, List.map_nil]
    rw [percentile_singleton, hzn]
    norm_num [npmax]
  have haggc : (aggregate_scores [normalize_and_contextualize_scores f]).child_risk = 0 := by
    simp only [aggregate_scores, List.map_cons, List.map_nil]
    rw [percentile_singleton, hzc]
    norm_num [npmax]
  refine ⟨hraw, hmul, hscore, haggv, ?_, ?_⟩
  · simp only [map_scores_to_rating, haggv, haggg, haggs, haggn, haggc]
    norm_num
  · simp only [map_scores_to_rating, haggv, haggg, haggs, haggn, haggc]
    norm_num

/-- Witness for C1 at the concrete feature vector `fC1`. -/
theorem c1_end_to_end_witness :
    violence_raw fC1 = 6 ∧
    (map_scores_to_rating
      (aggregate_scores [normalize_and_contextualize_scores fC1])).rating = "16+" ∧
    "интенсивное насилие и сцены убийств" ∈
      (map_scores_to_rating
        (aggregate_scores [normalize_and_contextualize_scores fC1])).reasons := by
  have h := c1_end_to_end fC1 (by norm_num [fC1]) (by norm_num [fC1])
    (by norm_num [fC1]) (by norm_num [fC1, ctxZero])
  exact ⟨h.1, h.2.2.2.2.1, h.2.2.2.2.2⟩

/-- Tier values of the five rating strings. -/
theorem ratingTier_of_18 : ratingTier "18+" = 4 := rfl

theorem ratingTier_of_16 : ratingTier "16+" = 3 := rfl

theorem ratingTier_of_12 : ratingTier "12+" = 2 := rfl

theorem ratingTier_of_6 : ratingTier "6+" = 1 := rfl

theorem ratingTier_of_0 : ratingTier "0+" = 0 := rfl

/-- C9: the rating classifier is total: for every aggregated score vector it
returns one of the five ratings, a nonempty reasons list, and at most 5
evidence excerpts. -/
theorem c9_rating_classifier_total (agg : AggScores) :
    (map_scores_to_rating agg).rating ∈ [ "0+", "6+", "12+", "16+", "18+"] ∧
    (map_scores_to_rating agg).reasons ≠ [] ∧
    (map_scores_to_rating agg).evidence_excerpts.length ≤ 5 := by
  refine ⟨?_, ?_, ?_⟩
  · simp only [map_scores_to_rating]
    simp only [apply_ite Prod.fst]
    split_ifs <;> simp
  · simp only [map_scores_to_rating]
    simp only [apply_ite (fun p : String × List String × List (List Char) => p.2.1)]
    split_ifs <;> simp_all
  · simp only [map_scores_to_rating, List.length_take]
    exact min_le_left _ _

/-- The rating tier produced by the rule table, computed directly on the
aggregated scores: evaluating `ratingTier` after `map_scores_to_rating`
gives exactly this chain. -/
theorem tier_rating_eq (x : AggScores) :
    ratingTier (map_scores_to_rating x).rating = ratingNum x := by
  simp only [map_scores_to_rating, ratingNum, apply_ite Prod.fst]
  split_ifs <;> rfl

set_option maxHeartbeats 800000 in
/-- C4: holding every aggregated score other than violence fixed, a larger
violence score never yields a strictly lower rating tier. -/
theorem c4_rating_monotone_in_violence (a b : AggScores)
    (hg : a.gore = b.gore) (hsx : a.sex_act = b.sex_act) (hn : a.nudity = b.nudity)
    (hp : a.profanity = b.profanity) (hd : a.drugs = b.drugs)
    (hc : a.child_risk = b.child_risk) (hv : a.violence ≤ b.violence) :
    ratingTier (map_scores_to_rating a).rating ≤
      ratingTier (map_scores_to_rating b).rating := by
  rw [tier_rating_eq, tier_rating_eq]
  unfold ratingNum
  rw [hg, hsx, hn, hp, hd, hc]
  split_ifs <;>
    first
      | omega
      | (push_neg at *
         casesm* _ ∨ _, _ ∧ _ <;>
           first
             | linarith
             | (simp_all only [true_implies]
                try linarith))

/-- Witness for C4 at two concrete aggregated score vectors. -/
theorem c4_rating_monotone_in_violence_witness :
    ratingTier (map_scores_to_rating
      { violence := 0.3, gore := 0, sex_act := 0, nudity := 0, profanity := 0,
        drugs := 0, child_risk := 0, excerpts := emptyExcerpts }).rating ≤
    ratingTier (map_scores_to_rating
      { violence := 0.9, gore := 0, sex_act := 0, nudity := 0, profanity := 0,
        drugs := 0, child_risk := 0, excerpts := emptyExcerpts }).rating :=
  c4_rating_monotone_in_violence
    { violence := 0.3, gore := 0, sex_act := 0, nudity := 0, profanity := 0,
      drugs := 0, child_risk := 0, excerpts := emptyExcerpts }
    { violence := 0.9, gore := 0, sex_act := 0, nudity := 0, profanity := 0,
      drugs := 0, child_risk := 0, excerpts := emptyExcerpts }
    rfl rfl rfl rfl rfl rfl (by norm_num)

/-- C8: the trigger scenes are exactly the ranked scenes of weight above
0.1 in descending-weight order, truncated to 5: taking the top 5 of the
stably sorted ranking and then dropping weights ≤ 0.1 (what the code does)
equals dropping first and then taking the top 5; the result never has more
than 5 entries. -/
theorem c8_trigger_scene_selection (scenes : List Scene) (scores : List ScoreVec) :
    top_trigger_scenes scenes scores =
      ((((rankingOf scenes scores).mergeSort weightGe).filter
          fun t => decide ((0.1 : ℚ) < t.1)).take 5).map mkTrigger ∧
    (top_trigger_scenes scenes scores).length ≤ 5 := by
  have hpair : ((rankingOf scenes scores).mergeSort weightGe).Pairwise
      (fun x y : ℚ × Scene × ScoreVec => y.1 ≤ x.1) := by
    have hs := List.sorted_mergeSort weightGe_trans weightGe_total
      (rankingOf scenes scores)
    exact hs.imp fun hxy => by simpa [weightGe, decide_eq_true_eq] using hxy
  constructor
  · simp only [top_trigger_scenes]
    rw [take_filter_comm (fun t : ℚ × Scene × ScoreVec => t.1) 0.1 _ hpair 5]
  · simp only [top_trigger_scenes]
    rw [List.length_map]
    exact le_trans (List.length_filter_le _ _) (List.length_take_le _ _)

/-- C10: every excerpt field of the extracted features is the trimmed form
of a contiguous slice of the lowercased scene text (matching is performed
on the lowercased copy, so evidence never preserves the original casing). -/
theorem c10_evidence_from_lowercased_text (ctxOf : List Char → CtxScores)
    (scene_text e : List Char)
    (he : e ∈ (extract_scene_features ctxOf scene_text).violence_excerpts ∨
      e ∈ (extract_scene_features ctxOf scene_text).gore_excerpts ∨
      e ∈ (extract_scene_features ctxOf scene_text).profanity_excerpts ∨
      e ∈ (extract_scene_features ctxOf scene_text).drugs_excerpts ∨
      e ∈ (extract_scene_features ctxOf scene_text).child_excerpts ∨
      e ∈ (extract_scene_features ctxOf scene_text).nudity_excerpts ∨
      e ∈ (extract_scene_features ctxOf scene_text).sex_excerpts) :
    ∃ s, isSliceOf s (pyLower scene_text) ∧ e = strip s := by
  rcases he with h | h | h | h | h | h | h
  · exact excerpt_mem_is_trimmed_slice VIOLENCE_WORDS (pyLower scene_text) h
  · exact excerpt_mem_is_trimmed_slice GORE_WORDS (pyLower scene_text) h
  · exact excerpt_mem_is_trimmed_slice PROFANITY (pyLower scene_text) h
  · exact excerpt_mem_is_trimmed_slice DRUG_WORDS (pyLower scene_text) h
  · exact excerpt_mem_is_trimmed_slice CHILD_WORDS (pyLower scene_text) h
  · exact excerpt_mem_is_trimmed_slice NUDITY_WORDS (pyLower scene_text) h
  · exact excerpt_mem_is_trimmed_slice SEX_WORDS (pyLower scene_text) h

/-- Witness for C10: on the scene text "Knife attack" the violence excerpt
"knife attack" is a trimmed slice of the lowercased text. -/
theorem c10_evidence_from_lowercased_text_witness :
    ∃ s, isSliceOf s (pyLower ( "Knife attack".toList)) ∧
      ( "knife attack".toList) = strip s :=
  c10_evidence_from_lowercased_text (fun _ => ctxZero) ( "Knife attack".toList)
    ( "knife attack".toList) (Or.inl (of_decide_eq_true rfl))

end RepairPipeline
